import Mathlib

/-!
# Verification of the ecommerce-api-v2 cart / order / checkout core

Shallow embedding of the repository's cart, product, order and checkout logic:

* `Product` and its instance methods, from `backend/models/Product.js`;
* `Cart` and its instance methods, from `backend/models/Cart.js`;
* `Order`, its status state machine and totals, from `backend/models/Order.js`;
* the admin order routes (`PATCH /admin/orders/:id/status`,
  `DELETE /admin/orders/:id`), from `backend/routes/adminOrders.js`;
* the user order routes (`PATCH /api/orders/:id/status`,
  `POST /api/orders/checkout`), from `backend/routes/orders.js`.

Conventions of the embedding:

* JavaScript numbers holding money are modelled as `Rat` (all literals in the
  source are short decimals); quantities and stock are `Nat` (schema minima
  force them non-negative, and all source arithmetic on them is integral).
* A document id is modelled as a `Nat`.
* The database holds one document per model; a collection is a `List`.
  `Model.findById` is `List.find?` on the id, and saving a product document
  writes it back over the stored document with the same id.
* Calls to `Date.now` / `new Date()` are modelled by threading an explicit
  `now : Nat` parameter.  The order-number pre-save hook, shipping address,
  payment method and notes fields are not modelled: no claim concerns them.
* A thrown `Error` is an `Except.error` carrying the message string; a route
  handler that catches an error produces an outcome whose persisted state is
  whatever the last completed `save()` wrote.
-/

namespace ECom

/-! ## Product model (`backend/models/Product.js`) -/

/-- One product document, restricted to the schema fields the verified claims
touch: `price`, `stock`, `isActive`, plus `name` (copied into order lines) and
the document id. -/
structure Product where
  pid : Nat
  name : String
  price : Rat
  stock : Nat
  isActive : Bool
deriving Repr, DecidableEq

/-- `productSchema.methods.isInStock`: `this.stock >= quantity && this.isActive`. -/
def Product.isInStock (p : Product) (quantity : Nat) : Bool :=
  decide (quantity ≤ p.stock) && p.isActive

/-- `productSchema.methods.reduceStock`: if `this.stock >= quantity` decrement
and save, else throw `"Insufficient stock"`.  The `.ok` value is the document
as saved. -/
def Product.reduceStock (p : Product) (quantity : Nat) : Except String Product :=
  if p.stock ≥ quantity then .ok { p with stock := p.stock - quantity }
  else .error "Insufficient stock"

/-- The products collection. -/
abbrev Store := List Product

/-- `Product.findById(productId)`. -/
def findById (store : Store) (productId : Nat) : Option Product :=
  store.find? (fun p => p.pid == productId)

/-- Persisting a saved product document: the stored document with the same id
is replaced by the saved one. -/
def saveProduct : Store → Product → Store
  | [], _ => []
  | q :: rest, p => if q.pid == p.pid then p :: rest else q :: saveProduct rest p

/-! ## Cart model (`backend/models/Cart.js`) -/

/-- One cart line (`cartItemSchema`): product reference, quantity, and the
price snapshot captured when the line was created or last updated. -/
structure CartItem where
  product : Nat
  quantity : Nat
  price : Rat
deriving Repr, DecidableEq

/-- A cart document (`cartSchema`): owning user, lines, and the two stored
derived totals. -/
structure Cart where
  user : Nat
  items : List CartItem
  totalItems : Nat
  totalPrice : Rat
deriving Repr, DecidableEq

/-- The `cartSchema.pre("save")` hook composed with persisting: recomputes
`totalItems` and `totalPrice` from the lines by the source's two `reduce`
folds.  The schema's `min: 0` validators can only reject a save wholesale,
never alter the written values, so they are not modelled. -/
def Cart.save (c : Cart) : Cart :=
  { c with
    totalItems := c.items.foldl (fun total item => total + item.quantity) 0
    totalPrice := c.items.foldl (fun total item => total + item.price * (item.quantity : Rat)) 0 }

/-- In-place mutation of the first line matching `productId` (the JS code
mutates the line returned by `Array.prototype.find`). -/
def updateFirstItem (productId : Nat) (f : CartItem → CartItem) : List CartItem → List CartItem
  | [] => []
  | i :: rest =>
    if i.product == productId then f i :: rest
    else i :: updateFirstItem productId f rest

/-- `cartSchema.methods.addItem(productId, quantity)`. -/
def Cart.addItem (store : Store) (c : Cart) (productId : Nat) (quantity : Nat) :
    Except String Cart :=
  match findById store productId with
  | none => .error "Product not found"
  | some product =>
    if !product.isInStock quantity then .error "Insufficient stock"
    else
      match c.items.find? (fun item => item.product == productId) with
      | some existingItem =>
        if !product.isInStock (existingItem.quantity + quantity) then
          .error "Insufficient stock"
        else
          .ok (Cart.save { c with
            items := updateFirstItem productId
              (fun item => { item with quantity := item.quantity + quantity }) c.items })
      | none =>
        .ok (Cart.save { c with
          items := c.items ++ [{ product := productId, quantity := quantity, price := product.price }] })

/-- `cartSchema.methods.removeItem(productId)`: drops every line for the
product (a no-op when absent) and saves. -/
def Cart.removeItem (c : Cart) (productId : Nat) : Cart :=
  Cart.save { c with items := c.items.filter (fun item => item.product != productId) }

/-- `cartSchema.methods.updateItemQuantity(productId, quantity)`.  The
quantity argument is an `Int` because the source tests `quantity <= 0`. -/
def Cart.updateItemQuantity (store : Store) (c : Cart) (productId : Nat) (quantity : Int) :
    Except String Cart :=
  match findById store productId with
  | none => .error "Product not found"
  | some product =>
    if quantity ≤ 0 then .ok (c.removeItem productId)
    else if !product.isInStock quantity.toNat then .error "Insufficient stock"
    else
      match c.items.find? (fun item => item.product == productId) with
      | some _ =>
        .ok (Cart.save { c with
          items := updateFirstItem productId
            (fun item => { item with quantity := quantity.toNat, price := product.price }) c.items })
      | none => .error "Item not found in cart"

/-- `cartSchema.methods.clearCart()`. -/
def Cart.clearCart (c : Cart) : Cart :=
  Cart.save { c with items := [] }

/-- `cartSchema.methods.isEmpty()`. -/
def Cart.isEmpty (c : Cart) : Bool :=
  c.items.isEmpty

/-- One cart mutation, as offered by the cart's instance methods. -/
inductive CartOp
  | addItem (productId : Nat) (quantity : Nat)
  | updateItemQuantity (productId : Nat) (quantity : Int)
  | removeItem (productId : Nat)
  | clear
deriving Repr, DecidableEq

/-- Running one cart mutation against the current products collection. -/
def applyCartOp (store : Store) (op : CartOp) (c : Cart) : Except String Cart :=
  match op with
  | .addItem productId quantity => c.addItem store productId quantity
  | .updateItemQuantity productId quantity => c.updateItemQuantity store productId quantity
  | .removeItem productId => .ok (c.removeItem productId)
  | .clear => .ok c.clearCart

/-- The cart totals invariant: the stored totals agree with the sums over the
lines. -/
def cartTotalsOk (c : Cart) : Prop :=
  c.totalItems = (c.items.map CartItem.quantity).sum ∧
  c.totalPrice = (c.items.map (fun item => item.price * (item.quantity : Rat))).sum

instance (c : Cart) : Decidable (cartTotalsOk c) := by
  unfold cartTotalsOk; infer_instance

/-! ## Order model (`backend/models/Order.js`) -/

/-- `orderSchema.orderStatus` enum. -/
inductive OrderStatus
  | pending | confirmed | processing | shipped | delivered | cancelled
deriving Repr, DecidableEq

/-- `orderSchema.paymentStatus` enum. -/
inductive PaymentStatus
  | pending | paid | failed | refunded
deriving Repr, DecidableEq

/-- String form of an order status, as interpolated into error messages. -/
def statusToString : OrderStatus → String
  | .pending => "pending"
  | .confirmed => "confirmed"
  | .processing => "processing"
  | .shipped => "shipped"
  | .delivered => "delivered"
  | .cancelled => "cancelled"

/-- One order line (`orderItemSchema`): product reference plus denormalized
quantity, price and name values. -/
structure OrderItem where
  product : Nat
  quantity : Nat
  price : Rat
  name : String
deriving Repr, DecidableEq

/-- An order document, restricted to the `orderSchema` fields the claims
touch.  Note that `orderSchema` declares NO `statusHistory` path: the schema
fields are exactly `orderNumber`, `user`, `items`, `shippingAddress`,
`paymentMethod`, `paymentStatus`, `orderStatus`, `subtotal`, `shippingCost`,
`tax`, `total`, `notes`, `trackingNumber`, `shippedAt`, `deliveredAt` and the
automatic timestamps. -/
structure Order where
  user : Nat
  items : List OrderItem
  paymentStatus : PaymentStatus
  orderStatus : OrderStatus
  subtotal : Rat
  shippingCost : Rat
  tax : Rat
  total : Rat
  shippedAt : Option Nat
  deliveredAt : Option Nat
deriving Repr, DecidableEq

/-- The `validTransitions` table, written identically in
`orderSchema.methods.updateStatus` and in the admin status route. -/
def validTransitions : OrderStatus → List OrderStatus
  | .pending => [.confirmed, .cancelled]
  | .confirmed => [.processing, .cancelled]
  | .processing => [.shipped, .cancelled]
  | .shipped => [.delivered]
  | .delivered => []
  | .cancelled => []

/-- `orderSchema.methods.updateStatus(newStatus)`: guard against the
`validTransitions` table (throwing a message that names the current and the
attempted status), set the status, stamp `shippedAt` / `deliveredAt` on the
corresponding transitions, and save.  The `.ok` value is the document as
saved. -/
def Order.updateStatus (now : Nat) (o : Order) (newStatus : OrderStatus) :
    Except String Order :=
  if !(validTransitions o.orderStatus).contains newStatus then
    .error ("Invalid status transition from " ++ statusToString o.orderStatus ++
      " to " ++ statusToString newStatus)
  else
    let o1 := { o with orderStatus := newStatus }
    let o2 :=
      if newStatus = .shipped then { o1 with shippedAt := some now }
      else if newStatus = .delivered then { o1 with deliveredAt := some now }
      else o1
    .ok o2

/-- `orderSchema.methods.calculateTotals()`: `subtotal` from the order lines,
`tax = subtotal * 0.08`, `total = subtotal + shippingCost + tax`. -/
def Order.calculateTotals (o : Order) : Order :=
  let subtotal := o.items.foldl (fun total item => total + item.price * (item.quantity : Rat)) 0
  let tax := subtotal * (8 / 100 : Rat)
  { o with subtotal := subtotal, tax := tax, total := subtotal + o.shippingCost + tax }

/-- A status-history entry as the admin routes construct it. -/
structure StatusHistoryEntry where
  status : OrderStatus
  updatedAt : Nat
  updatedBy : Nat
  note : String
deriving Repr, DecidableEq

/-- Reading `order.statusHistory` on an order document.  `orderSchema`
declares no `statusHistory` path, so the document exposes no such property
and the read yields `undefined`, modelled as `none`. -/
def Order.statusHistoryProp (_ : Order) : Option (List StatusHistoryEntry) :=
  none

/-- `order.statusHistory.push(entry)` as executed by the admin routes: a
member access on the value of `order.statusHistory`.  As that value is
`undefined` (the schema has no such path), the access throws a `TypeError`;
the `some` branch records what a push would do were the path declared. -/
def Order.pushStatusHistory (o : Order) (entry : StatusHistoryEntry) :
    Except String (Order × List StatusHistoryEntry) :=
  match o.statusHistoryProp with
  | none => .error "TypeError: Cannot read properties of undefined (reading push)"
  | some history => .ok (o, history ++ [entry])

/-! ## Order routes

`backend/routes/orders.js` (user PATCH, checkout) and
`backend/routes/adminOrders.js` (admin PATCH, admin DELETE = soft cancel).
An outcome records the HTTP status of the response and the order document as
it is persisted once the handler returns: when a handler throws after
mutating the in-memory document but before `order.save()`, the persisted
document is the unmutated one. -/

/-- Result of a route handler acting on one existing order. -/
structure RouteOutcome where
  persisted : Order
  httpStatus : Nat
  message : String
deriving Repr, DecidableEq

/-- `PATCH /api/orders/:id/status`: calls `order.updateStatus(status)`; an
`Invalid status transition` error is returned as 400 with the error's
message, and nothing is persisted in that case. -/
def userUpdateOrderStatus (now : Nat) (o : Order) (status : OrderStatus) : RouteOutcome :=
  match o.updateStatus now status with
  | .ok o1 => { persisted := o1, httpStatus := 200, message := "Order status updated successfully" }
  | .error msg => { persisted := o, httpStatus := 400, message := msg }

/-- `PATCH /admin/orders/:id/status`: checks the route's own copy of the
`validTransitions` table (400 on an invalid pair, naming both states), sets
the status on the in-memory document, then pushes a history entry onto
`order.statusHistory` before `order.save()`.  The push throws (no such schema
path), the handler's catch answers 500, and the document is never saved. -/
def adminUpdateOrderStatus (now : Nat) (actor : Nat) (o : Order) (status : OrderStatus)
    (note : Option String) : RouteOutcome :=
  if !(validTransitions o.orderStatus).contains status then
    { persisted := o, httpStatus := 400
      message := "Cannot change status from " ++ statusToString o.orderStatus ++
        " to " ++ statusToString status }
  else
    let o1 := { o with orderStatus := status }
    match o1.pushStatusHistory
        { status := status, updatedAt := now, updatedBy := actor
          note := note.getD ("Status changed to " ++ statusToString status) } with
    | .error _ =>
      { persisted := o, httpStatus := 500, message := "Failed to update order status" }
    | .ok (o2, _) =>
      { persisted := o2, httpStatus := 200
        message := "Order status updated to " ++ statusToString status }

/-- `DELETE /admin/orders/:id` (soft cancel): sets
`order.orderStatus = "cancelled"` with no transition check, then pushes a
history entry onto `order.statusHistory` before `order.save()`.  The push
throws (no such schema path), the handler's catch answers 500, and the
document is never saved. -/
def adminCancelOrder (now : Nat) (actor : Nat) (o : Order) : RouteOutcome :=
  let o1 := { o with orderStatus := OrderStatus.cancelled }
  match o1.pushStatusHistory
      { status := .cancelled, updatedAt := now, updatedBy := actor
        note := "Order cancelled by admin" } with
  | .error _ =>
    { persisted := o, httpStatus := 500, message := "Failed to cancel order" }
  | .ok (o2, _) =>
    { persisted := o2, httpStatus := 200, message := "Order cancelled successfully" }

/-- One order-status-mutating route call on an existing order. -/
inductive OrderOp
  | userUpdateStatus (status : OrderStatus)
  | adminUpdateStatus (status : OrderStatus)
  | adminCancel
deriving Repr, DecidableEq

/-- Running one order-mutating route call. -/
def applyOrderOp (now : Nat) (actor : Nat) (note : Option String) (op : OrderOp) (o : Order) :
    RouteOutcome :=
  match op with
  | .userUpdateStatus status => userUpdateOrderStatus now o status
  | .adminUpdateStatus status => adminUpdateOrderStatus now actor o status note
  | .adminCancel => adminCancelOrder now actor o

/-! ## Checkout (`POST /api/orders/checkout` in `backend/routes/orders.js`) -/

/-- First failure found by the handler's availability loop.  The handler
iterates the populated cart lines in order; for each line it dereferences
`item.product` (a `TypeError` when the populate found no document — caught as
500), then tests `isActive` (400), then `isInStock(item.quantity)` (400). -/
inductive PrecheckErr
  | nullProduct
  | inactive (name : String)
  | insufficient (name : String)
deriving Repr, DecidableEq

/-- The populate of `items.product` fused with the handler's availability
loop: pairs each cart line with its product document, or reports the first
failing line. -/
def precheckItems (store : Store) : List CartItem → Except PrecheckErr (List (CartItem × Product))
  | [] => .ok []
  | item :: rest =>
    match findById store item.product with
    | none => .error .nullProduct
    | some p =>
      if !p.isActive then .error (.inactive p.name)
      else if !p.isInStock item.quantity then .error (.insufficient p.name)
      else
        match precheckItems store rest with
        | .error e => .error e
        | .ok pairs => .ok ((item, p) :: pairs)

/-- The `new Order({...})` construction in the checkout handler: lines are
mapped from the populated cart lines with `price: item.product.price` and
`name: item.product.name`; `subtotal` is `cart.totalPrice` and
`shippingCost` is `cart.totalPrice > 50 ? 0 : 10` (free shipping over $50). -/
def mkCheckoutOrder (user : Nat) (cart : Cart) (pairs : List (CartItem × Product)) : Order :=
  { user := user
    items := pairs.map (fun pr =>
      { product := pr.2.pid, quantity := pr.1.quantity, price := pr.2.price, name := pr.2.name })
    paymentStatus := .pending
    orderStatus := .pending
    subtotal := cart.totalPrice
    shippingCost := if 50 < cart.totalPrice then 0 else 10
    tax := 0
    total := 0
    shippedAt := none
    deliveredAt := none }

/-- Modelled from the spec: `utils/payment.js` is not part of the repository
snapshot.  Per spec section 4.4, `validatePaymentData` pre-validates
`amount > 0` and the payment method enum and throws a `ValidationError`
otherwise; the method enum is already enforced upstream by the checkout Joi
schema, leaving the amount check. -/
def validPaymentAmount (amount : Rat) : Bool :=
  decide (0 < amount)

/-- The success branch's stock-reduction loop:
`for (item of cart.items) await item.product.reduceStock(item.quantity)`.
Each call runs on the product document populated into the cart line (its
in-memory stock snapshot), and each completed call is persisted, so an error
thrown mid-loop leaves the earlier reductions in the store.  Returns the
store after the loop together with the error that stopped it, if any. -/
def reduceAllStock (store : Store) : List (CartItem × Product) → Store × Option String
  | [] => (store, none)
  | (item, p) :: rest =>
    match p.reduceStock item.quantity with
    | .error e => (store, some e)
    | .ok p1 => reduceAllStock (saveProduct store p1) rest

/-- Database and response state when a checkout call returns. -/
structure CheckoutOutcome where
  store : Store
  cart : Cart
  order : Option Order
  httpStatus : Nat
  success : Bool
deriving Repr, DecidableEq

/-- The checkout handler.  `paySuccess` is the verdict of the external
payment simulator (`simulatePayment` draws it at random; it is an input of
the model).  Steps, as in the source: empty-cart guard; availability loop;
order construction + `calculateTotals` + first `order.save()`;
`validatePaymentData` (throws, caught as 500, order already persisted);
payment; on success set `paid`/`confirmed`, reduce stock line by line, clear
the cart, save the order, 201; on failure set `paymentStatus = "failed"`,
save the order, 400 — stock and cart untouched. -/
def checkout (store : Store) (cart : Cart) (user : Nat) (paySuccess : Bool) : CheckoutOutcome :=
  if cart.isEmpty then
    { store := store, cart := cart, order := none, httpStatus := 400, success := false }
  else
    match precheckItems store cart.items with
    | .error .nullProduct =>
      { store := store, cart := cart, order := none, httpStatus := 500, success := false }
    | .error (.inactive _) =>
      { store := store, cart := cart, order := none, httpStatus := 400, success := false }
    | .error (.insufficient _) =>
      { store := store, cart := cart, order := none, httpStatus := 400, success := false }
    | .ok pairs =>
      let order := (mkCheckoutOrder user cart pairs).calculateTotals
      if !validPaymentAmount order.total then
        { store := store, cart := cart, order := some order, httpStatus := 500, success := false }
      else if paySuccess then
        let order1 := { order with paymentStatus := PaymentStatus.paid
                                   orderStatus := OrderStatus.confirmed }
        match reduceAllStock store pairs with
        | (store1, some _) =>
          { store := store1, cart := cart, order := some order, httpStatus := 500, success := false }
        | (store1, none) =>
          { store := store1, cart := cart.clearCart, order := some order1
            httpStatus := 201, success := true }
      else
        { store := store, cart := cart
          order := some { order with paymentStatus := PaymentStatus.failed }
          httpStatus := 400, success := false }

/-- The quantity of the cart line `addItem` would merge into (`0` when no
line for the product exists). -/
def existingQty (c : Cart) (productId : Nat) : Nat :=
  match c.items.find? (fun item => item.product == productId) with
  | some item => item.quantity
  | none => 0

/-- The line list `addItem` persists on success: merge into the first
existing line for the product, or append a new line at the given price. -/
def addItemResultItems (c : Cart) (productId quantity : Nat) (price : Rat) : List CartItem :=
  match c.items.find? (fun item => item.product == productId) with
  | some _ => updateFirstItem productId
      (fun item => { item with quantity := item.quantity + quantity }) c.items
  | none => c.items ++ [{ product := productId, quantity := quantity, price := price }]

/-! ## Concrete documents used in closed instances -/

/-- ProductA of the spec's checkout example: price `999.99`, stock `5`. -/
def prodA : Product :=
  { pid := 1, name := "ProductA", price := (999.99 : Rat), stock := 5, isActive := true }

/-- A persisted cart holding exactly 2 units of `prodA` at its price. -/
def cartA : Cart :=
  Cart.save { user := 0, items := [{ product := 1, quantity := 2, price := (999.99 : Rat) }]
              totalItems := 0, totalPrice := 0 }

/-- A product with stock 3 for the `addItem` instances. -/
def prodB : Product :=
  { pid := 2, name := "B", price := 4, stock := 3, isActive := true }

/-- A persisted cart already holding one unit of `prodB`. -/
def cartB : Cart :=
  { user := 5, items := [{ product := 2, quantity := 1, price := 4 }]
    totalItems := 1, totalPrice := 4 }

/-- A product whose price was raised to 20 after it was added to a cart. -/
def prodW : Product :=
  { pid := 3, name := "Widget", price := 20, stock := 10, isActive := true }

/-- A persisted cart whose line for `prodW` still snapshots the old price 10. -/
def cartW : Cart :=
  { user := 0, items := [{ product := 3, quantity := 1, price := 10 }]
    totalItems := 1, totalPrice := 10 }

/-- A product priced so that two units come to a subtotal of exactly 50. -/
def prodF : Product :=
  { pid := 4, name := "F", price := 25, stock := 10, isActive := true }

/-- A persisted cart whose `totalPrice` is exactly the $50 threshold. -/
def cartF : Cart :=
  { user := 0, items := [{ product := 4, quantity := 2, price := 25 }]
    totalItems := 2, totalPrice := 50 }

/-- A pending order. -/
def pendingOrder : Order :=
  { user := 7, items := [], paymentStatus := .pending, orderStatus := .pending
    subtotal := 100, shippingCost := 0, tax := 8, total := 108
    shippedAt := none, deliveredAt := none }

/-- A delivered order. -/
def deliveredOrder : Order :=
  { user := 7, items := [], paymentStatus := .paid, orderStatus := .delivered
    subtotal := 100, shippingCost := 0, tax := 8, total := 108
    shippedAt := some 3, deliveredAt := some 4 }

/-- A shipped order. -/
def shippedOrder : Order :=
  { user := 7, items := [], paymentStatus := .paid, orderStatus := .shipped
    subtotal := 100, shippingCost := 0, tax := 8, total := 108
    shippedAt := some 3, deliveredAt := none }

/-! ## Helper lemmas -/

theorem foldl_add_sum {M : Type} [AddCommMonoid M] {α : Type} (f : α → M)
    (l : List α) (t : M) :
    l.foldl (fun acc a => acc + f a) t = t + (l.map f).sum := by
  induction l generalizing t with
  | nil => simp
  | cons a l ih => simp [ih, add_assoc]

theorem cart_save_totalsOk (c : Cart) : cartTotalsOk (Cart.save c) := by
  constructor <;> simp [Cart.save, foldl_add_sum]

/-! ## C1: cart totals invariant -/

/-- C1: for every cart and every sequence of `addItem`, `updateItemQuantity`,
`removeItem` and `clearCart` calls, after each successful mutation the
persisted cart satisfies `totalItems = Σ quantity` and
`totalPrice = Σ price × quantity`.  Stated per mutation: each of the four
instance methods, whenever it succeeds, persists a cart satisfying the
invariant — so the invariant holds after every step of any sequence, not
just eventually. -/
theorem cart_totals_invariant (store : Store) (op : CartOp) (c c' : Cart)
    (h : applyCartOp store op c = .ok c') : cartTotalsOk c' := by
  cases op with
  | addItem productId quantity =>
    simp only [applyCartOp] at h
    unfold Cart.addItem at h
    repeat' split at h
    all_goals try exact Except.noConfusion h
    all_goals injection h with h; subst h; exact cart_save_totalsOk _
  | updateItemQuantity productId quantity =>
    simp only [applyCartOp] at h
    unfold Cart.updateItemQuantity Cart.removeItem at h
    repeat' split at h
    all_goals try exact Except.noConfusion h
    all_goals injection h with h; subst h; exact cart_save_totalsOk _
  | removeItem productId =>
    simp only [applyCartOp] at h
    unfold Cart.removeItem at h
    injection h with h; subst h; exact cart_save_totalsOk _
  | clear =>
    simp only [applyCartOp] at h
    unfold Cart.clearCart at h
    injection h with h; subst h; exact cart_save_totalsOk _

/-- Witness for C1: a concrete successful `addItem` into an empty cart
persists a cart whose stored totals are the sums over its lines. -/
theorem cart_totals_invariant_witness :
    cartTotalsOk { user := 0
                   items := [{ product := 1, quantity := 2, price := 5 }]
                   totalItems := 2, totalPrice := 10 } :=
  cart_totals_invariant [{ pid := 1, name := "A", price := 5, stock := 9, isActive := true }]
    (.addItem 1 2) { user := 0, items := [], totalItems := 0, totalPrice := 0 } _
    (by norm_num [applyCartOp, Cart.addItem, findById, Product.isInStock, Cart.save, updateFirstItem])

/-! ## C7: addItem error and success conditions -/

/-- C7: `addItem(productId, quantity)` fails `"Product not found"` when the
product does not exist; when it exists, it fails `"Insufficient stock"`
exactly when the product is inactive or `product.stock` is below the existing
line quantity plus the added quantity; and otherwise it succeeds by merging
into the existing line (summing quantities) or appending a new line capturing
the current product price — in particular
`existing quantity + added quantity ≤ stock` (together with the product being
active) is a precondition for success. -/
theorem addItem_spec (store : Store) (c : Cart) (productId quantity : Nat) :
    (findById store productId = none →
      c.addItem store productId quantity = .error "Product not found") ∧
    ∀ p, findById store productId = some p →
      ((c.addItem store productId quantity = .error "Insufficient stock") ↔
        (p.isActive = false ∨ p.stock < existingQty c productId + quantity)) ∧
      ∀ c', c.addItem store productId quantity = .ok c' →
        existingQty c productId + quantity ≤ p.stock ∧ p.isActive = true ∧
        c' = Cart.save { c with
          items := addItemResultItems c productId quantity p.price } := by
  refine ⟨fun hnone => ?_, fun p hp => ?_⟩
  · unfold Cart.addItem
    rw [hnone]
  · have hstock : ∀ q : Nat, (!p.isInStock q) = true ↔ (p.isActive = false ∨ p.stock < q) := by
      intro q
      cases hA : p.isActive <;> simp [Product.isInStock, hA]
    unfold Cart.addItem existingQty addItemResultItems
    rw [hp]
    cases hfind : c.items.find? (fun item => item.product == productId) with
    | none =>
      simp only [hfind]
      by_cases hs : (!p.isInStock quantity) = true
      · rw [if_pos hs]
        refine ⟨iff_of_true rfl ?_, fun c' hc' => Except.noConfusion hc'⟩
        simpa using (hstock quantity).mp hs
      · rw [if_neg hs]
        have h1 : quantity ≤ p.stock ∧ p.isActive = true := by
          simpa [Product.isInStock] using hs
        refine ⟨iff_of_false (by simp) ?_, ?_⟩
        · intro hrhs
          exact hs ((hstock quantity).mpr (by simpa using hrhs))
        · intro c' hc'
          injection hc' with hc'
          subst hc'
          exact ⟨by simpa using h1.1, h1.2, rfl⟩
    | some existingItem =>
      simp only [hfind]
      by_cases hs1 : (!p.isInStock quantity) = true
      · rw [if_pos hs1]
        refine ⟨iff_of_true rfl ?_, fun c' hc' => Except.noConfusion hc'⟩
        rcases (hstock quantity).mp hs1 with h | h
        · exact Or.inl h
        · exact Or.inr (by omega)
      · rw [if_neg hs1]
        by_cases hs2 : (!p.isInStock (existingItem.quantity + quantity)) = true
        · rw [if_pos hs2]
          exact ⟨iff_of_true rfl ((hstock _).mp hs2), fun c' hc' => Except.noConfusion hc'⟩
        · rw [if_neg hs2]
          have h2 : existingItem.quantity + quantity ≤ p.stock ∧ p.isActive = true := by
            simpa [Product.isInStock] using hs2
          refine ⟨iff_of_false (by simp) ?_, ?_⟩
          · intro hrhs
            exact hs2 ((hstock _).mpr hrhs)
          · intro c' hc'
            injection hc' with hc'
            subst hc'
            exact ⟨h2.1, h2.2, rfl⟩

/-- Witness for C7: on a store holding only `prodB` (stock 3) and a cart
already holding 1 unit, `addItem` on an unknown id fails `Product not found`;
adding 5 more units fails `Insufficient stock` (3 < 1 + 5); and adding 2 more
units succeeds by merging into the existing line. -/
theorem addItem_spec_witness :
    Cart.addItem [prodB] cartB 9 1 = .error "Product not found" ∧
    Cart.addItem [prodB] cartB 2 5 = .error "Insufficient stock" ∧
    (existingQty cartB 2 + 2 ≤ prodB.stock ∧ prodB.isActive = true ∧
      ({ user := 5, items := [{ product := 2, quantity := 3, price := 4 }]
         totalItems := 3, totalPrice := 12 } : Cart) =
        Cart.save { cartB with items := addItemResultItems cartB 2 2 prodB.price }) :=
  ⟨(addItem_spec [prodB] cartB 9 1).1 (by rfl),
   ((addItem_spec [prodB] cartB 2 5).2 prodB (by rfl)).1.mpr
     (Or.inr (by norm_num [existingQty, prodB, cartB])),
   ((addItem_spec [prodB] cartB 2 2).2 prodB (by rfl)).2 _
     (by norm_num [Cart.addItem, findById, Product.isInStock, Cart.save, updateFirstItem,
       prodB, cartB, addItemResultItems, existingQty])⟩

/-! ## C9: the concrete checkout success scenario -/

/-- C9: checking out a cart holding exactly 2 units of ProductA
(price 999.99, stock 5 ≥ 2) with a successful payment produces an order with
`subtotal = 1999.98`, `tax = 159.9984` (8% of the subtotal, exactly — the
implementation applies no rounding), `shippingCost = 0` and
`total = subtotal + tax`; the cart is empty afterwards and ProductA's stock
is reduced by 2 (5 to 3). -/
theorem checkout_success_concrete :
    (checkout [prodA] cartA 0 true).order.map Order.subtotal = some (1999.98 : Rat) ∧
    (checkout [prodA] cartA 0 true).order.map Order.tax = some (159.9984 : Rat) ∧
    (checkout [prodA] cartA 0 true).order.map Order.shippingCost = some 0 ∧
    (checkout [prodA] cartA 0 true).order.map Order.total =
      some ((1999.98 : Rat) + (159.9984 : Rat)) ∧
    (checkout [prodA] cartA 0 true).cart.items = [] ∧
    findById (checkout [prodA] cartA 0 true).store 1 =
      some { prodA with stock := prodA.stock - 2 } ∧
    (checkout [prodA] cartA 0 true).httpStatus = 201 ∧
    (checkout [prodA] cartA 0 true).success = true := by
  norm_num [checkout, prodA, cartA, Cart.save, Cart.isEmpty, precheckItems, findById,
    Product.isInStock, mkCheckoutOrder, Order.calculateTotals, validPaymentAmount,
    reduceAllStock, Product.reduceStock, saveProduct, Cart.clearCart]

/-! ## C2: payment failure leaves stock and cart untouched -/

/-- C2: when checkout reaches the payment step (non-empty cart, availability
checks passed, valid payment amount) and the payment simulator returns
failure, the products collection and the cart are exactly as before the call,
while the created order remains persisted with `paymentStatus = failed` and
`orderStatus = pending` — it is not rolled back or deleted. -/
theorem checkout_payment_failure_frame (store : Store) (cart : Cart) (user : Nat)
    (pairs : List (CartItem × Product))
    (hne : cart.isEmpty = false)
    (hpre : precheckItems store cart.items = .ok pairs)
    (hamt : validPaymentAmount ((mkCheckoutOrder user cart pairs).calculateTotals).total = true) :
    (checkout store cart user false).store = store ∧
    (checkout store cart user false).cart = cart ∧
    (checkout store cart user false).order =
      some { (mkCheckoutOrder user cart pairs).calculateTotals with
             paymentStatus := PaymentStatus.failed } ∧
    (checkout store cart user false).order.map Order.paymentStatus = some .failed ∧
    (checkout store cart user false).order.map Order.orderStatus = some .pending ∧
    (checkout store cart user false).httpStatus = 400 := by
  simp only [checkout, hne, hpre, hamt, Bool.not_true, Bool.false_eq_true, if_false,
    Option.map_some]
  simp [mkCheckoutOrder, Order.calculateTotals]

/-- Witness for C2: a failed payment on the concrete ProductA cart leaves the
store and the cart unchanged and persists a failed/pending order. -/
theorem checkout_payment_failure_frame_witness :
    (checkout [prodA] cartA 0 false).store = [prodA] ∧
    (checkout [prodA] cartA 0 false).cart = cartA ∧
    (checkout [prodA] cartA 0 false).order.map Order.paymentStatus = some .failed ∧
    (checkout [prodA] cartA 0 false).order.map Order.orderStatus = some .pending ∧
    (checkout [prodA] cartA 0 false).httpStatus = 400 := by
  obtain ⟨h1, h2, _, h4, h5, h6⟩ :=
    checkout_payment_failure_frame [prodA] cartA 0
      [({ product := 1, quantity := 2, price := (999.99 : Rat) }, prodA)]
      (by rfl) (by rfl)
      (by norm_num [validPaymentAmount, mkCheckoutOrder, Order.calculateTotals, cartA, prodA,
        Cart.save])
  exact ⟨h1, h2, h4, h5, h6⟩

/-! ## C8: the free-shipping threshold -/

/-- Counterexample to C8: a checkout of a cart whose subtotal is exactly 50
creates an order with `shippingCost = 10`, not `0` — the source computes
`cart.totalPrice > 50 ? 0 : 10`, so at a subtotal of exactly $50 (which is
"at least $50") shipping is not free. -/
theorem shipping_at_exactly_50_cex :
    cartF.totalPrice = 50 ∧
    (checkout [prodF] cartF 0 true).order.map Order.shippingCost = some 10 ∧
    (10 : Rat) ≠ 0 := by
  norm_num [checkout, prodF, cartF, Cart.isEmpty, precheckItems, findById, Product.isInStock,
    mkCheckoutOrder, Order.calculateTotals, validPaymentAmount, reduceAllStock,
    Product.reduceStock, saveProduct, Cart.clearCart]

/-- C8 amended: for every checkout that creates an order, `shippingCost` is 0
exactly when the cart subtotal is strictly greater than $50, and the flat fee
10 otherwise (so a subtotal of exactly $50 pays the flat fee). -/
theorem shipping_cost_rule (store : Store) (cart : Cart) (user : Nat) (pay : Bool)
    (ord : Order) (h : (checkout store cart user pay).order = some ord) :
    ord.shippingCost = if 50 < cart.totalPrice then 0 else 10 := by
  unfold checkout at h
  repeat' split at h
  all_goals try dsimp only at h
  repeat' split at h
  all_goals first
    | exact Option.noConfusion h
    | (injection h with h; subst h; simp [mkCheckoutOrder, Order.calculateTotals])

/-- Witness for C8 (amended): the concrete successful ProductA checkout
(cart subtotal 1999.98 > 50) is created with free shipping. -/
theorem shipping_cost_rule_witness :
    ({ user := 0
       items := [{ product := 1, quantity := 2, price := (999.99 : Rat), name := "ProductA" }]
       paymentStatus := .paid, orderStatus := .confirmed
       subtotal := (1999.98 : Rat), shippingCost := 0, tax := (159.9984 : Rat)
       total := (2159.9784 : Rat), shippedAt := none, deliveredAt := none } : Order).shippingCost =
      if 50 < cartA.totalPrice then 0 else 10 :=
  shipping_cost_rule [prodA] cartA 0 true _
    (by norm_num [checkout, prodA, cartA, Cart.save, Cart.isEmpty, precheckItems, findById,
      Product.isInStock, mkCheckoutOrder, Order.calculateTotals, validPaymentAmount,
      reduceAllStock, Product.reduceStock, saveProduct, Cart.clearCart])

/-! ## C6: order lines are denormalized copies -/

/-- Shape of a successful availability pre-check: it pairs each cart line, in
order, with the product document `findById` returns for it, and each such
product is active with stock covering the line quantity. -/
theorem precheckItems_ok (store : Store) :
    ∀ (items : List CartItem) (pairs : List (CartItem × Product)),
      precheckItems store items = .ok pairs →
      pairs.map Prod.fst = items ∧
      ∀ pr ∈ pairs, findById store pr.1.product = some pr.2 ∧
        pr.2.isActive = true ∧ pr.1.quantity ≤ pr.2.stock
  | [], pairs, h => by
    unfold precheckItems at h
    injection h with h
    subst h
    exact ⟨rfl, by simp⟩
  | item :: rest, pairs, h => by
    unfold precheckItems at h
    cases hf : findById store item.product with
    | none =>
      simp only [hf] at h
      exact Except.noConfusion h
    | some p =>
      simp only [hf] at h
      by_cases hA : (!p.isActive) = true
      · rw [if_pos hA] at h; exact Except.noConfusion h
      · rw [if_neg hA] at h
        by_cases hS : (!p.isInStock item.quantity) = true
        · rw [if_pos hS] at h; exact Except.noConfusion h
        · rw [if_neg hS] at h
          cases hrec : precheckItems store rest with
          | error e => rw [hrec] at h; exact Except.noConfusion h
          | ok tailPairs =>
            rw [hrec] at h
            injection h with h
            subst h
            obtain ⟨htl1, htl2⟩ := precheckItems_ok store rest tailPairs hrec
            refine ⟨by simp [htl1], ?_⟩
            intro pr hpr
            rcases List.mem_cons.mp hpr with hpr | hpr
            · subst hpr
              refine ⟨hf, by simpa using hA, ?_⟩
              have h1 : item.quantity ≤ p.stock ∧ p.isActive = true := by
                simpa [Product.isInStock] using hS
              exact h1.1
            · exact htl2 pr hpr

/-- Counterexample to C6: a product added to the cart at price 10 and later
repriced to 20 is checked out with an order line price of 20 — the current
product price, not the price stored in the cart line. -/
theorem order_line_price_cex :
    cartW.items.map CartItem.price = [10] ∧
    (checkout [prodW] cartW 0 true).order.map (fun o => o.items.map OrderItem.price) =
      some [20] ∧
    (20 : Rat) ≠ 10 := by
  norm_num [checkout, prodW, cartW, Cart.isEmpty, precheckItems, findById, Product.isInStock,
    mkCheckoutOrder, Order.calculateTotals, validPaymentAmount, reduceAllStock,
    Product.reduceStock, saveProduct, Cart.clearCart]

/-- C6 amended: each line of the order created by a checkout is a
denormalized value copy taken from the product document populated into the
cart at checkout time — the line's name and price equal that product's
current name and price (not the cart line's stored price snapshot), and the
line's quantity equals the cart line's quantity.  Being plain copied values,
the persisted order lines are unaffected by later product edits. -/
theorem order_lines_denormalized (store : Store) (cart : Cart) (user : Nat) (pay : Bool)
    (pairs : List (CartItem × Product))
    (hpre : precheckItems store cart.items = .ok pairs) :
    ∀ ord, (checkout store cart user pay).order = some ord →
      ord.items = pairs.map (fun pr =>
        { product := pr.2.pid, quantity := pr.1.quantity
          price := pr.2.price, name := pr.2.name }) ∧
      pairs.map Prod.fst = cart.items ∧
      ∀ pr ∈ pairs, findById store pr.1.product = some pr.2 := by
  intro ord h
  obtain ⟨h1, h2⟩ := precheckItems_ok store cart.items pairs hpre
  refine ⟨?_, h1, fun pr hpr => (h2 pr hpr).1⟩
  unfold checkout at h
  rw [hpre] at h
  dsimp only at h
  repeat' split at h
  all_goals first
    | exact Option.noConfusion h
    | (injection h with h; subst h; simp [mkCheckoutOrder, Order.calculateTotals])

/-- Witness for C6 (amended): the concrete Widget checkout order carries the
product's current name and price. -/
theorem order_lines_denormalized_witness :
    ({ user := 0, items := [{ product := 3, quantity := 1, price := 20, name := "Widget" }]
       paymentStatus := .paid, orderStatus := .confirmed
       subtotal := 20, shippingCost := 10, tax := (8 / 5 : Rat), total := (158 / 5 : Rat)
       shippedAt := none, deliveredAt := none } : Order).items =
      [(({ product := 3, quantity := 1, price := 10 } : CartItem), prodW)].map (fun pr =>
        ({ product := pr.2.pid, quantity := pr.1.quantity
           price := pr.2.price, name := pr.2.name } : OrderItem)) ∧
    [(({ product := 3, quantity := 1, price := 10 } : CartItem), prodW)].map Prod.fst =
      cartW.items := by
  have H := order_lines_denormalized [prodW] cartW 0 true
    [({ product := 3, quantity := 1, price := 10 }, prodW)] (by rfl)
    { user := 0, items := [{ product := 3, quantity := 1, price := 20, name := "Widget" }]
      paymentStatus := .paid, orderStatus := .confirmed
      subtotal := 20, shippingCost := 10, tax := (8 / 5 : Rat), total := (158 / 5 : Rat)
      shippedAt := none, deliveredAt := none }
    (by norm_num [checkout, prodW, cartW, Cart.isEmpty, precheckItems, findById,
      Product.isInStock, mkCheckoutOrder, Order.calculateTotals, validPaymentAmount,
      reduceAllStock, Product.reduceStock, saveProduct, Cart.clearCart])
  exact ⟨H.1, H.2.1⟩

/-! ## C10: the reduceStock error branch is unreachable during checkout -/

/-- If every populated pair satisfies the stock bound checked by the
availability loop, the stock-reduction loop runs to completion: each
`reduceStock` call operates on the per-line product snapshot, whose stock the
pre-check bounded, so its insufficient-stock branch never fires. -/
theorem reduceAllStock_ok (pairs : List (CartItem × Product)) :
    ∀ store : Store, (∀ pr ∈ pairs, pr.1.quantity ≤ pr.2.stock) →
      (reduceAllStock store pairs).2 = none := by
  induction pairs with
  | nil => intro store _; rfl
  | cons pr rest ih =>
    intro store h
    obtain ⟨item, p⟩ := pr
    have hq : item.quantity ≤ p.stock := h (item, p) (List.mem_cons_self _ _)
    unfold reduceAllStock Product.reduceStock
    rw [if_pos hq]
    exact ih _ (fun pr hpr => h pr (List.mem_cons_of_mem _ hpr))

/-- `updateFirstItem` never changes which products the lines reference when
the update function keeps the line's product. -/
theorem updateFirstItem_map_product (productId : Nat) (f : CartItem → CartItem)
    (hf : ∀ i, (f i).product = i.product) :
    ∀ l : List CartItem,
      (updateFirstItem productId f l).map CartItem.product = l.map CartItem.product := by
  intro l
  induction l with
  | nil => rfl
  | cons i rest ih =>
    unfold updateFirstItem
    by_cases h : (i.product == productId) = true
    · rw [if_pos h]; simp [hf]
    · rw [if_neg h]; simp [ih]

/-- Shape of a successful `addItem`: some product was found and the persisted
lines are `addItemResultItems` at that product's price. -/
theorem addItem_ok_items (store : Store) (c c' : Cart) (productId quantity : Nat)
    (h : c.addItem store productId quantity = .ok c') :
    ∃ p, findById store productId = some p ∧
      c' = Cart.save { c with items := addItemResultItems c productId quantity p.price } := by
  unfold Cart.addItem at h
  cases hfind : findById store productId with
  | none =>
    simp only [hfind] at h
    exact Except.noConfusion h
  | some p =>
    simp only [hfind] at h
    refine ⟨p, rfl, ?_⟩
    unfold addItemResultItems
    by_cases h1 : (!p.isInStock quantity) = true
    · rw [if_pos h1] at h; exact Except.noConfusion h
    · rw [if_neg h1] at h
      cases hfind2 : c.items.find? (fun item => item.product == productId) with
      | some existing =>
        simp only [hfind2] at h
        by_cases h2 : (!p.isInStock (existing.quantity + quantity)) = true
        · rw [if_pos h2] at h; exact Except.noConfusion h
        · rw [if_neg h2] at h
          injection h with h
          simp only [hfind2]
          exact h.symm
      | none =>
        simp only [hfind2] at h
        injection h with h
        simp only [hfind2]
        exact h.symm

/-- C10: during a single successful checkout, the insufficient-stock error
branch inside `reduceStock` is unreachable: once the per-line availability
pre-check has passed (product active, stock at least the line quantity) and
the cart lines reference pairwise-distinct products — the invariant `addItem`
maintains by merging a duplicate product into the existing line instead of
appending — every sequential `reduceStock(quantity)` call satisfies
`stock ≥ quantity`, so the stock-reduction loop reports no error. -/
theorem reduceStock_error_unreachable (store : Store) (cart : Cart)
    (pairs : List (CartItem × Product))
    (hpre : precheckItems store cart.items = .ok pairs)
    (_hnodup : (cart.items.map CartItem.product).Nodup) :
    (reduceAllStock store pairs).2 = none ∧
    ∀ (store2 : Store) (c c' : Cart) (productId quantity : Nat),
      (c.items.map CartItem.product).Nodup →
      c.addItem store2 productId quantity = .ok c' →
      (c'.items.map CartItem.product).Nodup := by
  constructor
  · obtain ⟨-, h2⟩ := precheckItems_ok store cart.items pairs hpre
    exact reduceAllStock_ok pairs store (fun pr hpr => (h2 pr hpr).2.2)
  · intro store2 c c' productId quantity hnd hok
    obtain ⟨p, -, hc'⟩ := addItem_ok_items store2 c c' productId quantity hok
    subst hc'
    show ((Cart.save _).items.map CartItem.product).Nodup
    unfold Cart.save addItemResultItems
    cases hfind2 : c.items.find? (fun item => item.product == productId) with
    | some existing =>
      simp only
      rw [updateFirstItem_map_product productId
        (fun item => { item with quantity := item.quantity + quantity }) (fun i => rfl)]
      exact hnd
    | none =>
      simp only
      rw [List.map_append]
      rw [List.nodup_append]
      refine ⟨hnd, List.nodup_singleton _, ?_⟩
      intro a ha hb
      simp only [List.map_cons, List.map_nil, List.mem_singleton] at hb
      subst hb
      obtain ⟨i, hi, hip⟩ := List.mem_map.mp ha
      have := List.find?_eq_none.mp hfind2 i hi
      simp [hip] at this

/-- Witness for C10: on a two-line cart over two distinct products whose
pre-check passes, the stock-reduction loop reports no error; and the concrete
merge `addItem` keeps the product references pairwise distinct. -/
theorem reduceStock_error_unreachable_witness :
    (reduceAllStock [prodB, prodF]
      [({ product := 2, quantity := 1, price := 4 }, prodB),
       ({ product := 4, quantity := 2, price := 25 }, prodF)]).2 = none ∧
    (([({ product := 2, quantity := 3, price := 4 } : CartItem)].map CartItem.product).Nodup) := by
  have H := reduceStock_error_unreachable [prodB, prodF]
    { user := 5
      items := [{ product := 2, quantity := 1, price := 4 },
                { product := 4, quantity := 2, price := 25 }]
      totalItems := 3, totalPrice := 54 }
    [({ product := 2, quantity := 1, price := 4 }, prodB),
     ({ product := 4, quantity := 2, price := 25 }, prodF)]
    (by rfl) (by decide)
  refine ⟨H.1, ?_⟩
  have H2 := H.2 [prodB] cartB
    { user := 5, items := [{ product := 2, quantity := 3, price := 4 }]
      totalItems := 3, totalPrice := 12 }
    2 2 (by decide)
    (by norm_num [Cart.addItem, findById, Product.isInStock, Cart.save, updateFirstItem,
      prodB, cartB])
  exact H2


/-! ## C3: invalid transitions are rejected and change nothing -/

/-- C3: for every pair (current, target) outside the allowed edge set,
the transition call fails — `updateStatus` throws an error naming the current
state and the attempted target (surfaced by the user route as a 400 with
that message), and the admin status route answers 400 with a message naming
both states — and in both cases the persisted order, in particular its
`orderStatus`, is unchanged. -/
theorem invalid_transition_rejected (now actor : Nat) (note : Option String)
    (o : Order) (s : OrderStatus)
    (h : (validTransitions o.orderStatus).contains s = false) :
    o.updateStatus now s = .error ("Invalid status transition from " ++
      statusToString o.orderStatus ++ " to " ++ statusToString s) ∧
    (userUpdateOrderStatus now o s).persisted = o ∧
    (userUpdateOrderStatus now o s).httpStatus = 400 ∧
    (adminUpdateOrderStatus now actor o s note).persisted = o ∧
    (adminUpdateOrderStatus now actor o s note).httpStatus = 400 ∧
    (adminUpdateOrderStatus now actor o s note).message =
      "Cannot change status from " ++ statusToString o.orderStatus ++
        " to " ++ statusToString s := by
  have hguard : (!(validTransitions o.orderStatus).contains s) = true := by
    rw [h]; rfl
  have h1 : o.updateStatus now s = .error ("Invalid status transition from " ++
      statusToString o.orderStatus ++ " to " ++ statusToString s) := by
    unfold Order.updateStatus
    rw [if_pos hguard]
  refine ⟨h1, ?_, ?_, ?_, ?_, ?_⟩
  · unfold userUpdateOrderStatus; rw [h1]
  · unfold userUpdateOrderStatus; rw [h1]
  · unfold adminUpdateOrderStatus; rw [if_pos hguard]
  · unfold adminUpdateOrderStatus; rw [if_pos hguard]
  · unfold adminUpdateOrderStatus; rw [if_pos hguard]

/-- Witness for C3: a delivered order refuses the transition to confirmed on
both the model method and the admin route, unchanged. -/
theorem invalid_transition_rejected_witness :
    deliveredOrder.updateStatus 5 .confirmed =
      .error "Invalid status transition from delivered to confirmed" ∧
    (userUpdateOrderStatus 5 deliveredOrder .confirmed).persisted = deliveredOrder ∧
    (adminUpdateOrderStatus 5 42 deliveredOrder .confirmed none).persisted = deliveredOrder ∧
    (adminUpdateOrderStatus 5 42 deliveredOrder .confirmed none).httpStatus = 400 := by
  have H := invalid_transition_rejected 5 42 none deliveredOrder .confirmed (by rfl)
  exact ⟨H.1, H.2.1, H.2.2.2.1, H.2.2.2.2.1⟩

/-! ## C4: orderStatus only moves along the section 4.3 graph -/

/-- A successful `updateStatus` call implies the transition was in the table
and the saved status is the requested one. -/
theorem updateStatus_ok (now : Nat) (o o' : Order) (s : OrderStatus)
    (h : o.updateStatus now s = .ok o') :
    (validTransitions o.orderStatus).contains s = true ∧ o'.orderStatus = s := by
  unfold Order.updateStatus at h
  by_cases hc : (!(validTransitions o.orderStatus).contains s) = true
  · rw [if_pos hc] at h
    exact Except.noConfusion h
  · rw [if_neg hc] at h
    dsimp only at h
    refine ⟨by simpa using hc, ?_⟩
    injection h with h
    subst h
    by_cases h1 : s = .shipped
    · simp [h1]
    · by_cases h2 : s = .delivered
      · simp [h1, h2]
      · simp [h1, h2]

/-- C4: under every order-mutating route call — the user and admin
status-transition endpoints and the admin soft-cancel included — the
persisted `orderStatus` either stays unchanged or moves along an edge of the
section 4.3 graph; in particular no call moves a shipped or delivered order
to cancelled, and a checkout only ever persists its order as pending or
confirmed.  (The admin PATCH and DELETE handlers never persist any change at
all: after passing — or, for DELETE, skipping — the transition check they
throw on `order.statusHistory`, which `orderSchema` does not declare, before
reaching `order.save()`.) -/
theorem order_status_graph (now actor : Nat) (note : Option String)
    (op : OrderOp) (o : Order) :
    ((applyOrderOp now actor note op o).persisted.orderStatus = o.orderStatus ∨
      (validTransitions o.orderStatus).contains
        ((applyOrderOp now actor note op o).persisted.orderStatus) = true) ∧
    ((o.orderStatus = .shipped ∨ o.orderStatus = .delivered) →
      (applyOrderOp now actor note op o).persisted.orderStatus ≠ .cancelled) ∧
    ∀ (store : Store) (cart : Cart) (user : Nat) (pay : Bool) (ord : Order),
      (checkout store cart user pay).order = some ord →
      ord.orderStatus = .pending ∨ ord.orderStatus = .confirmed := by
  have main : (applyOrderOp now actor note op o).persisted.orderStatus = o.orderStatus ∨
      (validTransitions o.orderStatus).contains
        ((applyOrderOp now actor note op o).persisted.orderStatus) = true := by
    cases op with
    | userUpdateStatus s =>
      simp only [applyOrderOp, userUpdateOrderStatus]
      cases h : o.updateStatus now s with
      | error msg => left; rfl
      | ok o1 =>
        right
        obtain ⟨hc, hs⟩ := updateStatus_ok now o o1 s h
        show (validTransitions o.orderStatus).contains o1.orderStatus = true
        rw [hs]
        exact hc
    | adminUpdateStatus s =>
      simp only [applyOrderOp]
      unfold adminUpdateOrderStatus
      by_cases hc : (!(validTransitions o.orderStatus).contains s) = true
      · rw [if_pos hc]; left; rfl
      · rw [if_neg hc]; left; rfl
    | adminCancel =>
      simp only [applyOrderOp]
      left; rfl
  refine ⟨main, ?_, ?_⟩
  · intro hso hcan
    rcases main with heq | hedge
    · rw [hcan] at heq
      rcases hso with h | h <;> rw [h] at heq <;> exact OrderStatus.noConfusion heq
    · rw [hcan] at hedge
      rcases hso with h | h <;> rw [h] at hedge <;> simp [validTransitions] at hedge
  · intro store cart user pay ord h
    unfold checkout at h
    repeat' split at h
    all_goals try dsimp only at h
    repeat' split at h
    all_goals first
      | exact Option.noConfusion h
      | (injection h with h; subst h; simp [mkCheckoutOrder, Order.calculateTotals])

/-- Witness for C4: the admin soft-cancel of a shipped order does not persist
a cancelled status, and the concrete failed-payment checkout order is
persisted as pending. -/
theorem order_status_graph_witness :
    (applyOrderOp 9 42 none .adminCancel shippedOrder).persisted.orderStatus ≠ .cancelled ∧
    (({ user := 0
        items := [{ product := 1, quantity := 2, price := (999.99 : Rat), name := "ProductA" }]
        paymentStatus := .failed, orderStatus := .pending
        subtotal := (1999.98 : Rat), shippingCost := 0, tax := (159.9984 : Rat)
        total := (2159.9784 : Rat), shippedAt := none, deliveredAt := none } : Order).orderStatus
        = .pending ∨
      ({ user := 0
         items := [{ product := 1, quantity := 2, price := (999.99 : Rat), name := "ProductA" }]
         paymentStatus := .failed, orderStatus := .pending
         subtotal := (1999.98 : Rat), shippingCost := 0, tax := (159.9984 : Rat)
         total := (2159.9784 : Rat), shippedAt := none, deliveredAt := none } : Order).orderStatus
        = .confirmed) := by
  have H := order_status_graph 9 42 none .adminCancel shippedOrder
  refine ⟨H.2.1 (Or.inl rfl), ?_⟩
  exact H.2.2 [prodA] cartA 0 false _
    (by norm_num [checkout, prodA, cartA, Cart.save, Cart.isEmpty, precheckItems, findById,
      Product.isInStock, mkCheckoutOrder, Order.calculateTotals, validPaymentAmount,
      reduceAllStock, Product.reduceStock, saveProduct, Cart.clearCart])

/-! ## C5: successful transitions record no statusHistory entry -/

/-- C5 (evidence of the code bug): a successful transition records no status
history anywhere.  `orderSchema` declares no `statusHistory` path, so the
order document carries none (`statusHistoryProp` is `none`); the model
method `updateStatus` persists the new status and nothing else (the saved
document is the input with only `orderStatus` replaced, and no field of it
holds a history entry); and both admin routes, which do try to push a
`statusHistory` entry, throw on the undefined property, answer 500 and
persist nothing at all. -/
theorem status_transition_records_no_history :
    pendingOrder.updateStatus 100 .confirmed =
      .ok { pendingOrder with orderStatus := .confirmed } ∧
    (adminUpdateOrderStatus 100 42 pendingOrder .confirmed none).persisted = pendingOrder ∧
    (adminUpdateOrderStatus 100 42 pendingOrder .confirmed none).httpStatus = 500 ∧
    (adminCancelOrder 100 42 pendingOrder).persisted = pendingOrder ∧
    (adminCancelOrder 100 42 pendingOrder).httpStatus = 500 ∧
    Order.statusHistoryProp pendingOrder = none :=
  ⟨rfl, rfl, rfl, rfl, rfl, rfl⟩

end ECom
